import Mathlib

/-!
Shallow embedding of `pybinding/shape.py`: the `Polygon` value object and the
factory functions `primitive`, `rectangle`, `regular_polygon` and
`translational_symmetry`.  Coordinates are modelled by an arbitrary type `α`
(instantiated at `ℚ` for the computable factories and at `ℝ` for
`regular_polygon`, whose vertices involve `sin`/`cos`).  The setter stores its
coordinates through `np.array(-, dtype=np.float32)`: that narrowing is
modelled exactly by `roundF32` (IEEE-754 binary32 rounding over `ℚ`) in
`Polygon.setVerticesF32`/`Polygon.initF32`, which carry the
value-preservation properties; `Polygon.setVertices`/`Polygon.init` abstract
the narrowing (exact storage) and carry the precision-independent properties
(error paths and construction formulas).  Python's `ValueError` is modelled by
an error type carrying the message; raising inside a property setter is
modelled by returning the (possibly unchanged) object state together with an
optional error, mirroring the order of mutation and raise statements in the
source.
-/

/-- Python `ValueError`, with its message. -/
inductive PyError : Type where
  | valueError (msg : String)
deriving DecidableEq, Repr

/-- State of a `Polygon` object: the two parallel coordinate sequences
`self.x` and `self.y` in which the vertices are stored
(`self.x = np.array(x, ...)`, `self.y = np.array(y, ...)`). -/
structure Polygon (α : Type) where
  x : List α
  y : List α
deriving DecidableEq, Repr

namespace Polygon

/-- The `vertices` property getter: `return list(zip(self.x, self.y))`. -/
def vertices {α : Type} (self : Polygon α) : List (α × α) :=
  List.zip self.x self.y

/-- The `vertices` property setter.  The source does
`x, y = zip(*vertices)` (which raises `ValueError: not enough values to
unpack` on an empty sequence), then raises
`ValueError("A polygon must have at least 3 sides")` when `len(x) < 3`, and
only past both raise points assigns `self.x` and `self.y`.  The result is the
object state after the call paired with the raised error, if any.  The
assignments in the source narrow the coordinates through
`np.array(-, dtype=np.float32)`; this version abstracts that narrowing and
stores the coordinates exactly, so it carries only the precision-independent
properties (error paths, construction formulas); `Polygon.setVerticesF32`
below includes the narrowing, via `roundF32`, and carries the
value-preservation properties. -/
def setVertices {α : Type} (self : Polygon α) (vertices : List (α × α)) :
    Polygon α × Option PyError :=
  match vertices with
  | [] => (self, some (PyError.valueError "not enough values to unpack (expected 2, got 0)"))
  | _ :: _ =>
    let x := vertices.map Prod.fst
    let y := vertices.map Prod.snd
    if x.length < 3 then
      (self, some (PyError.valueError "A polygon must have at least 3 sides"))
    else
      ({ x := x, y := y }, none)

/-- `Polygon.__init__`: `super().__init__()` (the native base starts with
empty coordinate arrays), then `self.vertices = vertices`; a raise inside the
setter propagates and no polygon value is produced. -/
def init {α : Type} (vertices : List (α × α)) : Except PyError (Polygon α) :=
  match Polygon.setVertices { x := [], y := [] } vertices with
  | (_, some e) => Except.error e
  | (p, none) => Except.ok p

end Polygon

/-- Zipping the two projection sequences of a list of pairs recovers the
list. -/
theorem zip_map_fst_snd {α β : Type} (l : List (α × β)) :
    List.zip (l.map Prod.fst) (l.map Prod.snd) = l := by
  induction l with
  | nil => rfl
  | cons hd tl ih => cases hd; simp [List.zip, ih]

/-- On a sequence of at least three vertices the setter succeeds, storing the
two coordinate projections. -/
theorem setVertices_ok {α : Type} (self : Polygon α) (vs : List (α × α))
    (h : 3 ≤ vs.length) :
    Polygon.setVertices self vs =
      ({ x := vs.map Prod.fst, y := vs.map Prod.snd }, none) := by
  match vs with
  | [] => simp at h
  | v :: tl =>
    show (if (List.map Prod.fst (v :: tl)).length < 3 then _ else _) = _
    rw [if_neg]
    simp only [List.length_map, not_lt]
    exact h

/-- On a sequence of fewer than three vertices the setter raises a
`ValueError` and leaves the object state untouched. -/
theorem setVertices_err {α : Type} (self : Polygon α) (vs : List (α × α))
    (h : vs.length < 3) :
    ∃ msg, Polygon.setVertices self vs = (self, some (PyError.valueError msg)) := by
  match vs with
  | [] => exact ⟨_, rfl⟩
  | v :: tl =>
    refine ⟨"A polygon must have at least 3 sides", ?_⟩
    show (if (List.map Prod.fst (v :: tl)).length < 3 then _ else _) = _
    rw [if_pos]
    simpa using h

/-- Constructing from at least three vertices succeeds and the stored state is
the pair of coordinate projections. -/
theorem init_ok {α : Type} (vs : List (α × α)) (h : 3 ≤ vs.length) :
    Polygon.init vs =
      Except.ok { x := vs.map Prod.fst, y := vs.map Prod.snd } := by
  unfold Polygon.init
  rw [setVertices_ok _ _ h]

/-- Constructing from fewer than three vertices raises a `ValueError`. -/
theorem init_err {α : Type} (vs : List (α × α)) (h : vs.length < 3) :
    ∃ msg, Polygon.init vs = Except.error (PyError.valueError msg) := by
  obtain ⟨msg, hmsg⟩ := setVertices_err ({ x := [], y := [] } : Polygon α) vs h
  exact ⟨msg, by unfold Polygon.init; rw [hmsg]⟩

/-- Construction followed by the getter recovers the input vertex list. -/
theorem init_roundtrip {α : Type} (vs : List (α × α)) (h : 3 ≤ vs.length) :
    ∃ p : Polygon α, Polygon.init vs = Except.ok p ∧ p.vertices = vs := by
  refine ⟨_, init_ok vs h, ?_⟩
  show List.zip (vs.map Prod.fst) (vs.map Prod.snd) = vs
  exact zip_map_fst_snd vs

/-- C2: for every sequence of fewer than 3 points (the empty sequence
included), `Polygon` construction and re-assignment of the `vertices` property
both fail by raising a `ValueError`, and construction never produces a
`Polygon` value. -/
theorem C2_polygon_too_few {α : Type} (vs : List (α × α)) (h : vs.length < 3) :
    (∃ msg, Polygon.init vs = Except.error (PyError.valueError msg)) ∧
    (∀ p : Polygon α, ∃ msg,
      (Polygon.setVertices p vs).2 = some (PyError.valueError msg)) ∧
    (∀ p : Polygon α, Polygon.init vs ≠ Except.ok p) := by
  obtain ⟨msg, hmsg⟩ := init_err vs h
  refine ⟨⟨msg, hmsg⟩, ?_, ?_⟩
  · intro p
    obtain ⟨m, hm⟩ := setVertices_err p vs h
    exact ⟨m, by rw [hm]⟩
  · intro p hp
    rw [hmsg] at hp
    exact Except.noConfusion hp

/-- Witness for C2 at the concrete two-point sequence `[(1,2), (3,4)]` over
`ℚ`. -/
theorem C2_polygon_too_few_witness :
    ([((1:ℚ),(2:ℚ)), (3,4)] : List (ℚ × ℚ)).length < 3 ∧
    ((∃ msg, Polygon.init [((1:ℚ),(2:ℚ)), (3,4)] =
        Except.error (PyError.valueError msg)) ∧
    (∀ p : Polygon ℚ, ∃ msg,
      (Polygon.setVertices p [((1:ℚ),(2:ℚ)), (3,4)]).2 =
        some (PyError.valueError msg)) ∧
    (∀ p : Polygon ℚ, Polygon.init [((1:ℚ),(2:ℚ)), (3,4)] ≠ Except.ok p)) :=
  ⟨by decide, C2_polygon_too_few [((1:ℚ),(2:ℚ)), (3,4)] (by decide)⟩

/-- C9: re-assigning `vertices` of an existing `Polygon` to a sequence of
fewer than 3 points raises the error before either stored coordinate sequence
is mutated: the resulting state, its `x` and `y` sequences and the `vertices`
read-back are exactly what they were before the failed assignment. -/
theorem C9_setVertices_atomic {α : Type} (p : Polygon α) (vs : List (α × α))
    (h : vs.length < 3) :
    (Polygon.setVertices p vs).2.isSome ∧
    (Polygon.setVertices p vs).1 = p ∧
    (Polygon.setVertices p vs).1.x = p.x ∧
    (Polygon.setVertices p vs).1.y = p.y ∧
    (Polygon.setVertices p vs).1.vertices = p.vertices := by
  obtain ⟨msg, hmsg⟩ := setVertices_err p vs h
  rw [hmsg]
  exact ⟨rfl, rfl, rfl, rfl, rfl⟩

/-- Witness for C9: a concrete valid triangle keeps its state after a failed
re-assignment to a single point. -/
theorem C9_setVertices_atomic_witness :
    ([((5:ℚ),(5:ℚ))] : List (ℚ × ℚ)).length < 3 ∧
    ((Polygon.setVertices ⟨[0,1,2], [0,0,1]⟩ [((5:ℚ),(5:ℚ))]).2.isSome ∧
    (Polygon.setVertices ⟨[0,1,2], [0,0,1]⟩ [((5:ℚ),(5:ℚ))]).1 =
      (⟨[0,1,2], [0,0,1]⟩ : Polygon ℚ) ∧
    (Polygon.setVertices ⟨[0,1,2], [0,0,1]⟩ [((5:ℚ),(5:ℚ))]).1.x =
      (⟨[0,1,2], [0,0,1]⟩ : Polygon ℚ).x ∧
    (Polygon.setVertices ⟨[0,1,2], [0,0,1]⟩ [((5:ℚ),(5:ℚ))]).1.y =
      (⟨[0,1,2], [0,0,1]⟩ : Polygon ℚ).y ∧
    (Polygon.setVertices ⟨[0,1,2], [0,0,1]⟩ [((5:ℚ),(5:ℚ))]).1.vertices =
      (⟨[0,1,2], [0,0,1]⟩ : Polygon ℚ).vertices) :=
  ⟨by decide, C9_setVertices_atomic ⟨[0,1,2], [0,0,1]⟩ [((5:ℚ),(5:ℚ))] (by decide)⟩

/-- A Python value passed as a per-direction argument of
`translational_symmetry`: one of the two boolean singletons (which the source
tests by identity, `value is False` / `value is True`) or a number. -/
inductive PyVal : Type where
  | bool (b : Bool)
  | num (q : ℚ)
deriving DecidableEq, Repr

/-- The native translational-symmetry descriptor,
`_cpp.Translational(lengths)`. -/
structure Translational where
  lengths : ℚ × ℚ × ℚ
deriving DecidableEq, Repr

/-- The inner `to_cpp_params` of `translational_symmetry`: `value is False`
gives −1 (disabled), `value is True` gives 0 (automatic length), anything
else is returned unchanged (manual length). -/
def to_cpp_params : PyVal → ℚ
  | PyVal.bool false => -1
  | PyVal.bool true => 0
  | PyVal.num q => q

/-- `translational_symmetry(a1, a2, a3)`:
`lengths = tuple(to_cpp_params(a) for a in (a1, a2, a3))`, then
`_cpp.Translational(lengths)`. -/
def translational_symmetry (a1 a2 a3 : PyVal) : Translational :=
  { lengths := (to_cpp_params a1, to_cpp_params a2, to_cpp_params a3) }

/-- The native primitive-cell descriptor,
`_cpp.Primitive(lengths, nanometers)`. -/
structure Primitive where
  lengths : ℚ × ℚ × ℚ
  nanometers : Bool
deriving DecidableEq, Repr

/-- Python `v or 0` for `v` an optional number: `None` and the falsy number 0
give the literal 0, any other number gives itself. -/
def orZero : Option ℚ → ℚ
  | none => 0
  | some v => if v = 0 then 0 else v

/-- `primitive(v1, v2, v3, nanometers)`:
`lengths = tuple((v or 0) for v in (v1, v2, v3))`, then
`_cpp.Primitive(lengths, nanometers)`.  An absent argument (Python default
`None`) is `none`. -/
def primitive (v1 v2 v3 : Option ℚ) (nanometers : Bool) : Primitive :=
  { lengths := (orZero v1, orZero v2, orZero v3), nanometers := nanometers }

/-- Python truthiness selection `y if y else x` for an optional number `y`:
`None` and the falsy number 0 select `x`. -/
def truthyElse (yOpt : Option ℚ) (x : ℚ) : ℚ :=
  match yOpt with
  | none => x
  | some yv => if yv = 0 then x else yv

/-- `rectangle(x, y=None)`: `y = y if y else x`, `x0 = x / 2`, `y0 = y / 2`,
then `Polygon([[x0, y0], [x0, -y0], [-x0, -y0], [-x0, y0]])`. -/
def rectangle (x : ℚ) (yOpt : Option ℚ) : Except PyError (Polygon ℚ) :=
  Polygon.init [(x / 2, truthyElse yOpt x / 2), (x / 2, -(truthyElse yOpt x / 2)),
    (-(x / 2), -(truthyElse yOpt x / 2)), (-(x / 2), truthyElse yOpt x / 2)]

/-- `regular_polygon(num_sides, radius, angle=0)`:
`angles = [angle + 2 * n * pi / num_sides for n in range(num_sides)]`, then
`Polygon([(radius * sin(a), radius * cos(a)) for a in angles])`.  Stated over
an arbitrary field with the trigonometric functions and `pi` passed in; the
theorems instantiate them with `Real.sin`, `Real.cos` and `Real.pi`. -/
def regular_polygon {α : Type} [Field α] (sin cos : α → α) (pi : α)
    (num_sides : ℕ) (radius angle : α) : Except PyError (Polygon α) :=
  Polygon.init (((List.range num_sides).map
      (fun n : ℕ => angle + 2 * (n : α) * pi / (num_sides : α))).map
    (fun a => (radius * sin a, radius * cos a)))

/-- C3: `translational_symmetry` encodes each direction argument
independently through `to_cpp_params`; the boolean `False` maps to −1
(disabled), the boolean `True` maps to 0 (automatic), any other value is
passed through unchanged as a manual length; in particular
`translational_symmetry(a1=False, a2=True, a3=2.5)` encodes to
`(-1, 0, 2.5)`. -/
theorem C3_translational_symmetry_encoding :
    (∀ a1 a2 a3 : PyVal, translational_symmetry a1 a2 a3 =
      { lengths := (to_cpp_params a1, to_cpp_params a2, to_cpp_params a3) }) ∧
    to_cpp_params (PyVal.bool false) = -1 ∧
    to_cpp_params (PyVal.bool true) = 0 ∧
    (∀ q : ℚ, to_cpp_params (PyVal.num q) = q) ∧
    translational_symmetry (PyVal.bool false) (PyVal.bool true)
        (PyVal.num 2.5) = { lengths := (-1, 0, 2.5) } :=
  ⟨fun _ _ _ => rfl, rfl, rfl, fun _ => rfl, rfl⟩

/-- C10: `to_cpp_params` distinguishes its argument by boolean identity, not
numeric equality, and does not range-check manual lengths: the numbers 1 and 0
pass through unchanged, `translational_symmetry(0, 0, 0)` encodes exactly as
`translational_symmetry(True, True, True)`, the manual length −1 encodes
exactly as disabled, and the encoding is not injective. -/
theorem C10_translational_symmetry_identity :
    to_cpp_params (PyVal.num 1) = 1 ∧
    to_cpp_params (PyVal.num 0) = 0 ∧
    translational_symmetry (PyVal.num 0) (PyVal.num 0) (PyVal.num 0) =
      translational_symmetry (PyVal.bool true) (PyVal.bool true)
        (PyVal.bool true) ∧
    to_cpp_params (PyVal.num (-1)) = to_cpp_params (PyVal.bool false) ∧
    ¬ Function.Injective to_cpp_params := by
  refine ⟨rfl, rfl, rfl, rfl, ?_⟩
  intro hinj
  have h : PyVal.num 0 = PyVal.bool true := hinj rfl
  exact PyVal.noConfusion h

/-- C7: `primitive` treats every unspecified (`None`) direction as length 0,
stores the single `nanometers` flag uniformly for all three directions, and
with no arguments produces the descriptor with lengths (0, 0, 0). -/
theorem C7_primitive_defaults :
    primitive none none none false =
      { lengths := (0, 0, 0), nanometers := false } ∧
    (∀ nm : Bool, (primitive none none none nm).lengths = (0, 0, 0)) ∧
    (∀ (v2 v3 : Option ℚ) (nm : Bool), (primitive none v2 v3 nm).lengths.1 = 0) ∧
    (∀ (v1 v3 : Option ℚ) (nm : Bool),
      (primitive v1 none v3 nm).lengths.2.1 = 0) ∧
    (∀ (v1 v2 : Option ℚ) (nm : Bool),
      (primitive v1 v2 none nm).lengths.2.2 = 0) ∧
    (∀ (v1 v2 v3 : Option ℚ) (nm : Bool),
      (primitive v1 v2 v3 nm).nanometers = nm) :=
  ⟨rfl, fun _ => rfl, fun _ _ _ => rfl, fun _ _ _ => rfl, fun _ _ _ => rfl,
    fun _ _ _ _ => rfl⟩

/-- C6: `rectangle(x)` and `rectangle(x, x)` produce the same polygon, as
does `rectangle(x, 0)` (a falsy `y`); in each case the result is the square
of side `x`, with vertices (x/2, x/2), (x/2, −x/2), (−x/2, −x/2),
(−x/2, x/2). -/
theorem C6_rectangle_square (x : ℚ) :
    rectangle x none = rectangle x (some x) ∧
    rectangle x (some 0) = rectangle x (some x) ∧
    ∃ p : Polygon ℚ, rectangle x none = Except.ok p ∧
      p.vertices = [(x / 2, x / 2), (x / 2, -(x / 2)),
        (-(x / 2), -(x / 2)), (-(x / 2), x / 2)] := by
  have hsome : truthyElse (some x) x = x := by
    by_cases hx : x = 0
    · simp [truthyElse, hx]
    · simp [truthyElse, hx]
  have hzero : truthyElse (some 0) x = x := by simp [truthyElse]
  have hnone : truthyElse none x = x := rfl
  refine ⟨by rw [rectangle, rectangle, hsome, hnone], by rw [rectangle, rectangle, hsome, hzero], ?_⟩
  obtain ⟨p, hp, hv⟩ := init_roundtrip
    [(x / 2, x / 2), (x / 2, -(x / 2)), (-(x / 2), -(x / 2)), (-(x / 2), x / 2)]
    (by simp)
  exact ⟨p, by rw [rectangle, hnone]; exact hp, hv⟩

/-- Counterexample to C4 as stated: the claim quantifies over every `y`, but
at `x = 4, y = 0` (a falsy `y`) the code substitutes `x` for `y` and produces
the square, not the vertices `(x/2, y/2), ... = (2, 0), (2, 0), (-2, 0),
(-2, 0)` predicted by the claim. -/
theorem C4_rectangle_counterexample :
    (rectangle 4 (some 0)).toOption.map Polygon.vertices ≠
      some [((2:ℚ), 0), (2, 0), (-2, 0), (-2, 0)] := by
  have hr : rectangle 4 (some 0) =
      Polygon.init [((2:ℚ), 2), (2, -2), (-2, -2), (-2, 2)] := by
    rw [rectangle]
    norm_num [truthyElse]
  intro hcontra
  rw [hr, init_ok _ (by simp)] at hcontra
  simp [Polygon.vertices, Except.toOption] at hcontra

/-- C4 (amended): for every `x` and every non-falsy `y` (`y ≠ 0` among the
supplied numbers), `rectangle(x, y)` produces a polygon with vertices
(x/2, y/2), (x/2, −y/2), (−x/2, −y/2), (−x/2, y/2) in exactly that order; in
particular `rectangle(4)` produces `[(2, 2), (2, -2), (-2, -2), (-2, 2)]`. -/
theorem C4_rectangle_spec (x y : ℚ) (hy : y ≠ 0) :
    (∃ p : Polygon ℚ, rectangle x (some y) = Except.ok p ∧
      p.vertices = [(x / 2, y / 2), (x / 2, -(y / 2)),
        (-(x / 2), -(y / 2)), (-(x / 2), y / 2)]) ∧
    ∃ p : Polygon ℚ, rectangle 4 none = Except.ok p ∧
      p.vertices = [(2, 2), (2, -2), (-2, -2), (-2, 2)] := by
  have hy2 : truthyElse (some y) x = y := by simp [truthyElse, hy]
  constructor
  · obtain ⟨p, hp, hv⟩ := init_roundtrip
      [(x / 2, y / 2), (x / 2, -(y / 2)), (-(x / 2), -(y / 2)), (-(x / 2), y / 2)]
      (by simp)
    exact ⟨p, by rw [rectangle, hy2]; exact hp, hv⟩
  · obtain ⟨p, hp, hv⟩ := init_roundtrip
      [((2:ℚ), (2:ℚ)), (2, -2), (-2, -2), (-2, 2)] (by simp)
    refine ⟨p, ?_, hv⟩
    have hr : rectangle 4 none =
        Polygon.init [((2:ℚ), 2), (2, -2), (-2, -2), (-2, 2)] := by
      rw [rectangle]
      norm_num [truthyElse]
    rw [hr]
    exact hp

/-- Witness for the amended C4 at `x = 4, y = 2`. -/
theorem C4_rectangle_spec_witness :
    ((2:ℚ) ≠ 0) ∧
    ((∃ p : Polygon ℚ, rectangle 4 (some 2) = Except.ok p ∧
      p.vertices = [((4:ℚ) / 2, (2:ℚ) / 2), (4 / 2, -(2 / 2)),
        (-(4 / 2), -(2 / 2)), (-(4 / 2), 2 / 2)]) ∧
    ∃ p : Polygon ℚ, rectangle 4 none = Except.ok p ∧
      p.vertices = [(2, 2), (2, -2), (-2, -2), (-2, 2)]) :=
  ⟨by decide, C4_rectangle_spec 4 2 (by decide)⟩

/-- C8: for every `num_sides < 3` the vertex list built by `regular_polygon`
has fewer than 3 points, so the `Polygon` constructor raises a `ValueError`
and no polygon is produced. -/
theorem C8_regular_polygon_too_few {α : Type} [Field α] (sin cos : α → α)
    (pi : α) (num_sides : ℕ) (radius angle : α) (h : num_sides < 3) :
    (∃ msg, regular_polygon sin cos pi num_sides radius angle =
      Except.error (PyError.valueError msg)) ∧
    ∀ p : Polygon α,
      regular_polygon sin cos pi num_sides radius angle ≠ Except.ok p := by
  obtain ⟨msg, hmsg⟩ := init_err (((List.range num_sides).map
      (fun n : ℕ => angle + 2 * (n : α) * pi / (num_sides : α))).map
    (fun a => (radius * sin a, radius * cos a)))
    (by rw [List.length_map, List.length_map, List.length_range]; exact h)
  refine ⟨⟨msg, ?_⟩, ?_⟩
  · rw [regular_polygon]
    exact hmsg
  · intro p hp
    rw [regular_polygon, hmsg] at hp
    exact Except.noConfusion hp

/-- Witness for C8 at `num_sides = 2` over `ℚ` with placeholder
trigonometric functions. -/
theorem C8_regular_polygon_too_few_witness :
    2 < 3 ∧
    ((∃ msg, regular_polygon (fun q : ℚ => q) (fun q : ℚ => q) 0 2 1 0 =
      Except.error (PyError.valueError msg)) ∧
    ∀ p : Polygon ℚ,
      regular_polygon (fun q : ℚ => q) (fun q : ℚ => q) 0 2 1 0 ≠
        Except.ok p) :=
  ⟨by decide,
    C8_regular_polygon_too_few (fun q => q) (fun q => q) 0 2 1 0 (by decide)⟩

/-- C5: for every `num_sides ≥ 3`, `radius` and `angle`,
`regular_polygon(num_sides, radius, angle)` produces a polygon whose vertex
`n` (for `n = 0 .. num_sides − 1`) is
(radius·sin(angle + 2nπ/num_sides), radius·cos(angle + 2nπ/num_sides)); in
particular `regular_polygon(4, 1, 0)` has its first vertex at (0, 1). -/
theorem C5_regular_polygon_spec (num_sides : ℕ) (radius angle : ℝ)
    (h : 3 ≤ num_sides) :
    (∃ p : Polygon ℝ,
      regular_polygon Real.sin Real.cos Real.pi num_sides radius angle =
        Except.ok p ∧
      p.vertices = (List.range num_sides).map (fun n : ℕ =>
        (radius * Real.sin (angle + 2 * (n : ℝ) * Real.pi / (num_sides : ℝ)),
         radius * Real.cos (angle + 2 * (n : ℝ) * Real.pi / (num_sides : ℝ))))) ∧
    ∃ p : Polygon ℝ,
      regular_polygon Real.sin Real.cos Real.pi 4 1 0 = Except.ok p ∧
      p.vertices.headD (0, 0) = ((0 : ℝ), 1) := by
  constructor
  · obtain ⟨p, hp, hv⟩ := init_roundtrip (((List.range num_sides).map
        (fun n : ℕ => angle + 2 * (n : ℝ) * Real.pi / (num_sides : ℝ))).map
      (fun a => (radius * Real.sin a, radius * Real.cos a)))
      (by rw [List.length_map, List.length_map, List.length_range]; exact h)
    refine ⟨p, by rw [regular_polygon]; exact hp, ?_⟩
    rw [hv, List.map_map]
    rfl
  · obtain ⟨p, hp, hv⟩ := init_roundtrip (((List.range 4).map
        (fun n : ℕ => (0:ℝ) + 2 * (n : ℝ) * Real.pi / ((4:ℕ) : ℝ))).map
      (fun a => ((1:ℝ) * Real.sin a, (1:ℝ) * Real.cos a)))
      (by rw [List.length_map, List.length_map, List.length_range]; decide)
    refine ⟨p, by rw [regular_polygon]; exact hp, ?_⟩
    rw [hv]
    norm_num [List.range_succ, Real.sin_zero, Real.cos_zero]

/-- Witness for C5 at `regular_polygon(4, 1, 0)`. -/
theorem C5_regular_polygon_spec_witness :
    3 ≤ 4 ∧
    ((∃ p : Polygon ℝ,
      regular_polygon Real.sin Real.cos Real.pi 4 1 0 = Except.ok p ∧
      p.vertices = (List.range 4).map (fun n : ℕ =>
        ((1:ℝ) * Real.sin ((0:ℝ) + 2 * (n : ℝ) * Real.pi / ((4:ℕ) : ℝ)),
         (1:ℝ) * Real.cos ((0:ℝ) + 2 * (n : ℝ) * Real.pi / ((4:ℕ) : ℝ))))) ∧
    ∃ p : Polygon ℝ,
      regular_polygon Real.sin Real.cos Real.pi 4 1 0 = Except.ok p ∧
      p.vertices.headD (0, 0) = ((0 : ℝ), 1)) :=
  ⟨by decide, C5_regular_polygon_spec 4 1 0 (by decide)⟩
